import Mathlib

set_option linter.unusedVariables false

/-! Verification of the BemfaProtocol session controller.

The embedding follows src/unnamed/part_000, the variant of
bemfa_protocol.cc that implements the full hello handshake
(ParseServerHello, hello publication and the 10 s wait); the companion
src/main/protocols/bemfa_protocol.cc shares every other function
modelled here.  JSON values are modelled after the cJSON API, and
possible null-pointer dereferences of cJSON items surface as the
value none.  Each operation returns, next to its result and updated
state, a trace of externally visible events (publishes, waits, lock
uses, callbacks), so that properties about what an operation emits can
be stated directly. -/

/-- JSON values as exposed by the cJSON library. -/
inductive cJSON where
  | null
  | boolean (b : Bool)
  | num (n : Int)
  | str (s : String)
  | arr (elems : List cJSON)
  | obj (fields : List (String × cJSON))

/-- First binding of a key in a cJSON object field list. -/
def lookupField : List (String × cJSON) → String → Option cJSON
  | [], _ => none
  | (k, v) :: rest, key => if k = key then some v else lookupField rest key

/-- cJSON_GetObjectItem: none models the NULL return for a missing key
or a non-object argument. -/
def cJSON_GetObjectItem : cJSON → String → Option cJSON
  | cJSON.obj fields, key => lookupField fields key
  | _, _ => none

/-- The valuestring field of a cJSON item: none models the NULL char
pointer stored for non-string items. -/
def valuestring : cJSON → Option String
  | cJSON.str s => some s
  | _ => none

/-- The valueint field of a cJSON item (0 for non-numeric items). -/
def valueint : cJSON → Int
  | cJSON.num n => n
  | _ => 0

/-- Externally visible actions of the controller. -/
inductive Event where
  | clearHello
  | sendTextCalled (text : String)
  | mqttPublish (topic : String) (text : String)
  | waitHello (timeoutMs : Nat)
  | signalHello
  | scheduleClose
  | incomingJson
  | lockAcquire
  | lockRelease
  | deleteUdp
  | closedCallback
  deriving DecidableEq

/-- Outcomes of the external collaborators during one operation. -/
structure Oracle where
  createMqttOk : Bool
  connectOk : Bool
  publishOk : Bool
  helloSignaled : Bool
  deriving DecidableEq

/-- The controller state: the fields of BemfaProtocol and of its
Protocol base that the modelled operations touch.  Pointer members are
modelled by a Bool recording whether they are non-null, and the two
registered callbacks by a Bool recording whether they are set. -/
structure ProtoState where
  endpoint : String
  client_id : String
  publish_topic : String
  mqttInit : Bool
  mqttConnected : Bool
  udp : Bool
  session_id : String
  udp_server : String
  udp_port : Int
  aes_key : List Nat
  aes_nonce : List Nat
  server_sample_rate : Int
  server_frame_duration : Int
  local_sequence : Nat
  remote_sequence : Nat
  busy_sending_audio : Bool
  error_occurred : Bool
  helloEventSet : Bool
  lastIncomingTime : Nat
  lastError : Option String
  onClosedRegistered : Bool
  onIncomingJsonRegistered : Bool
  deriving DecidableEq

/-- State after the BemfaProtocol constructor. -/
def initState : ProtoState where
  endpoint := "bemfa.com"
  client_id := "6407f6655dd3de7ab3a5476d36c9ab26"
  publish_topic := "testtopic"
  mqttInit := false
  mqttConnected := false
  udp := false
  session_id := ""
  udp_server := ""
  udp_port := 0
  aes_key := []
  aes_nonce := []
  server_sample_rate := 0
  server_frame_duration := 0
  local_sequence := 0
  remote_sequence := 0
  busy_sending_audio := false
  error_occurred := false
  helloEventSet := false
  lastIncomingTime := 0
  lastError := none
  onClosedRegistered := false
  onIncomingJsonRegistered := false

/-- Modelled from the spec: the fixed frame-duration constant
OPUS_FRAME_DURATION_MS used in the hello request; its defining header
is not under src/ and no claim depends on the concrete value. -/
def OPUS_FRAME_DURATION_MS : Nat := 60

/-- Modelled from the spec: the HandshakeTimeout error kind
(Lang::Strings::SERVER_TIMEOUT, whose defining header is not under
src/). -/
def SERVER_TIMEOUT : String := "SERVER_TIMEOUT"

/-- Modelled from the spec: the liveness timeout window consulted by
IsAudioChannelOpened; the Protocol base class is not under src/ and no
claim depends on the concrete value. -/
def livenessWindowMs : Nat := 120000

/-- Modelled from the spec: Protocol::IsTimeout, not under src/; per
the spec it holds once the time since the last successfully parsed
inbound signaling message exceeds the liveness window. -/
def IsTimeout (s : ProtoState) (now : Nat) : Bool :=
  decide (livenessWindowMs < now - s.lastIncomingTime)

/-- Modelled from the spec: Protocol::SetError, not under src/; per
the spec an aborting failure is recorded so that the channel no longer
reports open: the transient error flag is raised and the error kind
remembered. -/
def SetError (s : ProtoState) (message : String) : ProtoState :=
  { s with error_occurred := true, lastError := some message }

/-- BemfaProtocol::IsAudioChannelOpened (part_000 lines 365-367). -/
def IsAudioChannelOpened (s : ProtoState) (now : Nat) : Bool :=
  s.udp && !s.error_occurred && !IsTimeout s now

/-- BemfaProtocol::SendText (part_000 lines 161-178): publishes to the
configured topic with the "/set" suffix when the MQTT client exists
and the topic is non-empty; the publish outcome comes from the oracle. -/
def SendText (s : ProtoState) (o : Oracle) (text : String) : Bool × List Event :=
  if s.mqttInit = false then (false, [Event.sendTextCalled text])
  else if s.publish_topic = "" then (false, [Event.sendTextCalled text])
  else if o.publishOk then
    (true, [Event.sendTextCalled text,
            Event.mqttPublish (s.publish_topic ++ "/set") text])
  else (false, [Event.sendTextCalled text])

/-- BemfaProtocol::StartMqttClient (part_000 lines 81-153): recreate
the client, connect and subscribe; creation and connection outcomes
come from the oracle.  (The dangling pointer left behind by the
early return on an empty endpoint is not modelled.) -/
def StartMqttClient (s : ProtoState) (o : Oracle) (reportError : Bool) :
    Bool × ProtoState × List Event :=
  if s.endpoint = "" then (false, s, [])
  else if o.createMqttOk = false then
    (false, { s with mqttInit := false, mqttConnected := false }, [])
  else if o.connectOk = false then
    (false, { s with mqttInit := true, mqttConnected := false }, [])
  else (true, { s with mqttInit := true, mqttConnected := true }, [])

/-- BemfaProtocol::Start (part_000 lines 62-64). -/
def Start (s : ProtoState) (o : Oracle) : ProtoState × List Event :=
  ((StartMqttClient s o false).2.1, (StartMqttClient s o false).2.2)

/-- The hello request text built by OpenAudioChannel (part_000 lines
241-247). -/
def helloRequestMsg : String :=
  "\x7b\"type\":\"hello\",\"version\": 3,\"transport\":\"udp\",\"audio_params\":\x7b\"format\":\"opus\", \"sample_rate\":16000, \"channels\":1, \"frame_duration\":"
    ++ toString OPUS_FRAME_DURATION_MS ++ "\x7d\x7d"

/-- The goodbye text built by CloseAudioChannel (part_000
lines 204-207). -/
def goodbyeMsg (session_id : String) : String :=
  "\x7b\"session_id\":\"" ++ session_id ++ "\",\"type\":\"goodbye\"\x7d"

/-- The resets of OpenAudioChannel (part_000 lines 235-238): clear the
transient flags, empty the session id and clear the hello event bit. -/
def resetForOpen (s : ProtoState) : ProtoState :=
  { s with busy_sending_audio := false, error_occurred := false,
           session_id := "", helloEventSet := false }

/-- The part of OpenAudioChannel after connectivity is ensured
(part_000 lines 235-260): apply the resets, publish the hello request
and wait up to 10000 ms on the event group; on timeout record
SERVER_TIMEOUT. -/
def openAudioChannelBody (s : ProtoState) (o : Oracle) (evs0 : List Event) :
    Bool × ProtoState × List Event :=
  if (SendText (resetForOpen s) o helloRequestMsg).1 = false then
    (false, resetForOpen s,
     evs0 ++ [Event.clearHello] ++ (SendText (resetForOpen s) o helloRequestMsg).2)
  else if o.helloSignaled then
    (true, resetForOpen s,
     evs0 ++ [Event.clearHello] ++ (SendText (resetForOpen s) o helloRequestMsg).2
       ++ [Event.waitHello 10000])
  else
    (false, SetError (resetForOpen s) SERVER_TIMEOUT,
     evs0 ++ [Event.clearHello] ++ (SendText (resetForOpen s) o helloRequestMsg).2
       ++ [Event.waitHello 10000])

/-- BemfaProtocol::OpenAudioChannel (part_000 lines 227-261). -/
def OpenAudioChannel (s : ProtoState) (o : Oracle) : Bool × ProtoState × List Event :=
  if s.mqttInit = false ∨ s.mqttConnected = false then
    if (StartMqttClient s o true).1 = false then
      (false, (StartMqttClient s o true).2.1, (StartMqttClient s o true).2.2)
    else
      openAudioChannelBody (StartMqttClient s o true).2.1 o (StartMqttClient s o true).2.2
  else openAudioChannelBody s o []

/-- BemfaProtocol::CloseAudioChannel (part_000 lines 195-216): drop
the datagram handle under the resource lock, then publish the goodbye
message and invoke the registered closed callback outside the lock. -/
def CloseAudioChannel (s : ProtoState) (o : Oracle) : ProtoState × List Event :=
  let lockEvs := Event.lockAcquire ::
    ((if s.udp then [Event.deleteUdp] else []) ++ [Event.lockRelease])
  let s1 := { s with udp := false }
  let send := SendText s1 o (goodbyeMsg s1.session_id)
  let cbEvs := if s1.onClosedRegistered then [Event.closedCallback] else []
  (s1, lockEvs ++ send.2 ++ cbEvs)

/-- CharToHex (part_000 lines 329-334). -/
def CharToHex (c : Char) : Nat :=
  if '0' ≤ c ∧ c ≤ '9' then c.toNat - '0'.toNat
  else if 'A' ≤ c ∧ c ≤ 'F' then c.toNat - 'A'.toNat + 10
  else if 'a' ≤ c ∧ c ≤ 'f' then c.toNat - 'a'.toNat + 10
  else 0

/-- The loop of DecodeHexString (part_000 lines 349-352) on the
character list; the one-character case models the in-bounds read of
the terminating NUL by hex_string[i + 1] on an odd-length input, and
CharToHex of NUL is 0. -/
def decodeHexChars : List Char → List Nat
  | [] => []
  | [c] => [16 * CharToHex c]
  | c1 :: c2 :: rest => (16 * CharToHex c1 + CharToHex c2) :: decodeHexChars rest

/-- BemfaProtocol::DecodeHexString (part_000 lines 346-354), with the
decoded bytes as natural numbers below 256. -/
def DecodeHexString (hex_string : String) : List Nat :=
  decodeHexChars hex_string.data

/-- The session-id extraction of ParseServerHello (part_000 lines
281-285); a session_id item that is not a string stores a NULL char
pointer into a std::string, modelled as a fault (none). -/
def parseSessionId (s : ProtoState) (root : cJSON) : Option ProtoState :=
  match cJSON_GetObjectItem root "session_id" with
  | none => some s
  | some sid =>
    match valuestring sid with
    | none => none
    | some v => some { s with session_id := v }

/-- The audio-params extraction of ParseServerHello (part_000 lines
287-297). -/
def parseAudioParams (s : ProtoState) (root : cJSON) : ProtoState :=
  match cJSON_GetObjectItem root "audio_params" with
  | none => s
  | some ap =>
    let s2 := match cJSON_GetObjectItem ap "sample_rate" with
      | none => s
      | some r => { s with server_sample_rate := valueint r }
    match cJSON_GetObjectItem ap "frame_duration" with
    | none => s2
    | some f => { s2 with server_frame_duration := valueint f }

/-- BemfaProtocol::ParseServerHello (part_000 lines 274-319).  none
models an undefined-behaviour fault: the log at line 277 dereferences
a NULL transport item, strcmp receives the NULL valuestring of a
non-string transport, and lines 306-309 dereference the result of
looking up "server"/"port"/"key"/"nonce" without a NULL check. -/
def ParseServerHello (s : ProtoState) (root : cJSON) :
    Option (ProtoState × List Event) :=
  match cJSON_GetObjectItem root "transport" with
  | none => none
  | some t =>
    match valuestring t with
    | none => none
    | some tv =>
      if tv = "udp" then
        match parseSessionId s root with
        | none => none
        | some sA =>
          let sB := parseAudioParams sA root
          match cJSON_GetObjectItem root "udp" with
          | none => some (sB, [])
          | some udpObj =>
            match cJSON_GetObjectItem udpObj "server" with
            | none => none
            | some serverItem =>
              match valuestring serverItem with
              | none => none
              | some server =>
                match cJSON_GetObjectItem udpObj "port" with
                | none => none
                | some portItem =>
                  match (cJSON_GetObjectItem udpObj "key").bind valuestring with
                  | none => none
                  | some key =>
                    match (cJSON_GetObjectItem udpObj "nonce").bind valuestring with
                    | none => none
                    | some nonce =>
                      some ({ sB with
                                udp_server := server,
                                udp_port := valueint portItem,
                                aes_nonce := DecodeHexString nonce,
                                aes_key := DecodeHexString key,
                                local_sequence := 0,
                                remote_sequence := 0,
                                helloEventSet := true },
                            [Event.signalHello])
      else some (s, [])

/-- The type dispatch of the OnMessage handler installed by
StartMqttClient (part_000 lines 123-136).  A goodbye schedules a
deferred CloseAudioChannel on the application context (never calls it
inline), which the trace records as scheduleClose; a goodbye whose
session_id item is a non-string faults when its NULL valuestring is
compared with the std::string session id. -/
def dispatchMessage (s : ProtoState) (root : cJSON) (tv : String) :
    Option (ProtoState × List Event) :=
  if tv = "hello" then ParseServerHello s root
  else if tv = "goodbye" then
    match cJSON_GetObjectItem root "session_id" with
    | none => some (s, [Event.scheduleClose])
    | some sid =>
      match valuestring sid with
      | none => none
      | some v =>
        if s.session_id = v then some (s, [Event.scheduleClose])
        else some (s, [])
  else if s.onIncomingJsonRegistered then some (s, [Event.incomingJson])
  else some (s, [])

/-- The OnMessage handler installed by StartMqttClient (part_000
lines 109-140).  The payload argument is the cJSON_Parse result (none
for unparsable text).  Early returns for a parse failure or a missing
type skip the last-incoming-time update at line 139; every dispatched
message updates it, with the delivery instant passed as now.  A type
item that is not a string hands a NULL valuestring to strcmp, a
fault. -/
def OnMessage (s : ProtoState) (now : Nat) (payload : Option cJSON) :
    Option (ProtoState × List Event) :=
  match payload with
  | none => some (s, [])
  | some root =>
    match cJSON_GetObjectItem root "type" with
    | none => some (s, [])
    | some t =>
      match valuestring t with
      | none => none
      | some tv =>
        match dispatchMessage s root tv with
        | none => none
        | some (s1, evs) => some ({ s1 with lastIncomingTime := now }, evs)

/-- States reachable from construction by any sequence of the
controller's operations, with arbitrary collaborator outcomes,
delivery instants and inbound payloads. -/
inductive Reachable : ProtoState → Prop where
  | init : Reachable initState
  | start (s : ProtoState) (o : Oracle) (r : Bool) (h : Reachable s) :
      Reachable (StartMqttClient s o r).2.1
  | openCh (s : ProtoState) (o : Oracle) (h : Reachable s) :
      Reachable (OpenAudioChannel s o).2.1
  | closeCh (s : ProtoState) (o : Oracle) (h : Reachable s) :
      Reachable (CloseAudioChannel s o).1
  | inbound (s : ProtoState) (now : Nat) (payload : Option cJSON)
      (s1 : ProtoState) (evs : List Event) (h : Reachable s)
      (hm : OnMessage s now payload = some (s1, evs)) : Reachable s1

/-- A state whose MQTT client is created and connected. -/
def sConn : ProtoState :=
  { initState with mqttInit := true, mqttConnected := true }

/-- A state holding a live datagram handle, a session and a registered
closed callback. -/
def sUdp : ProtoState :=
  { sConn with udp := true, session_id := "sess1", onClosedRegistered := true }

/-- A state with an active session id. -/
def sAbc : ProtoState := { sConn with session_id := "abc" }

/-- Collaborators that all succeed and deliver the hello signal. -/
def oAll : Oracle :=
  { createMqttOk := true, connectOk := true, publishOk := true, helloSignaled := true }

/-- Collaborators that all succeed but never deliver the hello
signal. -/
def oNoSig : Oracle := { oAll with helloSignaled := false }

/-- A goodbye message without a session_id field. -/
def gbNone : cJSON := cJSON.obj [("type", cJSON.str "goodbye")]

/-- A goodbye message with a non-matching session_id. -/
def gbOther : cJSON :=
  cJSON.obj [("type", cJSON.str "goodbye"), ("session_id", cJSON.str "zzz")]

/-- A hello message without a transport field. -/
def helloNoTransport : cJSON := cJSON.obj [("type", cJSON.str "hello")]

/-- A hello message with a non-udp transport and a session_id. -/
def helloTcp : cJSON :=
  cJSON.obj [("type", cJSON.str "hello"), ("transport", cJSON.str "tcp"),
             ("session_id", cJSON.str "zzz")]

/-- A udp hello whose udp object lacks the required server field. -/
def helloMissingServer : cJSON :=
  cJSON.obj [("type", cJSON.str "hello"), ("transport", cJSON.str "udp"),
             ("udp", cJSON.obj [])]

/-- A udp hello carrying a session_id but no udp object at all. -/
def helloNoUdpSid : cJSON :=
  cJSON.obj [("type", cJSON.str "hello"), ("transport", cJSON.str "udp"),
             ("session_id", cJSON.str "abc")]

/-- A complete, valid server hello. -/
def helloFull : cJSON :=
  cJSON.obj [("type", cJSON.str "hello"), ("transport", cJSON.str "udp"),
             ("session_id", cJSON.str "sess1"),
             ("udp", cJSON.obj [("server", cJSON.str "1.2.3.4"),
                                ("port", cJSON.num 1234),
                                ("key", cJSON.str "0A1B"),
                                ("nonce", cJSON.str "FF00")])]

/-- The state ParseServerHello produces from sConn and helloFull. -/
def sFull : ProtoState :=
  { sConn with session_id := "sess1", udp_server := "1.2.3.4", udp_port := 1234,
               aes_nonce := DecodeHexString "FF00", aes_key := DecodeHexString "0A1B",
               local_sequence := 0, remote_sequence := 0, helloEventSet := true }

/-- Interleaving of a list of character pairs into a character list. -/
def pairsToChars : List (Char × Char) → List Char
  | [] => []
  | p :: rest => p.1 :: p.2 :: pairsToChars rest

lemma sendText_mem_called (s : ProtoState) (o : Oracle) (text : String) :
    Event.sendTextCalled text ∈ (SendText s o text).2 := by
  unfold SendText
  repeat' split
  all_goals simp

lemma sendText_events (s : ProtoState) (o : Oracle) (text : String) :
    ∀ e ∈ (SendText s o text).2,
      e = Event.sendTextCalled text ∨
      e = Event.mqttPublish (s.publish_topic ++ "/set") text := by
  unfold SendText
  repeat' split
  all_goals simp

/-- C3: IsAudioChannelOpened is a pure read that holds exactly when a
datagram handle is present, no error is recorded, and the time since
the last inbound message is within the liveness window. -/
theorem IsAudioChannelOpened_iff (s : ProtoState) (now : Nat) :
    IsAudioChannelOpened s now = true ↔
      s.udp = true ∧ s.error_occurred = false ∧
      now - s.lastIncomingTime ≤ livenessWindowMs := by
  unfold IsAudioChannelOpened IsTimeout
  simp [Bool.and_eq_true, Bool.not_eq_true', Nat.not_lt, and_assoc]

/-- C9: the hex decoder packs every string of hex digit pairs into its
byte sequence, a non-hex character contributes the nibble 0, and the
two concrete examples of the spec hold. -/
theorem DecodeHexString_spec :
    (∀ ps : List (Char × Char),
       decodeHexChars (pairsToChars ps) =
         ps.map (fun p => 16 * CharToHex p.1 + CharToHex p.2))
  ∧ (∀ c : Char,
       ¬ (('0' ≤ c ∧ c ≤ '9') ∨ ('A' ≤ c ∧ c ≤ 'F') ∨ ('a' ≤ c ∧ c ≤ 'f')) →
       CharToHex c = 0)
  ∧ DecodeHexString "0A1B2C" = [0x0A, 0x1B, 0x2C]
  ∧ DecodeHexString "" = [] := by
  refine ⟨?_, ?_, by decide, by decide⟩
  · intro ps
    induction ps with
    | nil => rfl
    | cons p rest ih => simp [pairsToChars, decodeHexChars, ih]
  · intro c hc
    unfold CharToHex
    rw [if_neg (fun h => hc (Or.inl h)),
        if_neg (fun h => hc (Or.inr (Or.inl h))),
        if_neg (fun h => hc (Or.inr (Or.inr h)))]

theorem DecodeHexString_spec_witness : DecodeHexString "0A1B2C" = [0x0A, 0x1B, 0x2C] :=
  DecodeHexString_spec.2.2.1

/-- C2 (code bug): a udp hello whose udp object lacks the required
server field dereferences the NULL lookup result (modelled as none),
and a udp hello carrying a session_id but no udp object at all
overwrites the stored session id before the udp check, so the claimed
no-fault, no-state-change handling fails on the code. -/
theorem ParseServerHello_missing_udp_fields :
    ParseServerHello sConn helloMissingServer = none
  ∧ ParseServerHello sConn helloNoUdpSid =
      some ({ sConn with session_id := "abc" }, [])
  ∧ ({ sConn with session_id := "abc" } : ProtoState) ≠ sConn :=
  ⟨rfl, rfl, by decide⟩

/-- C4 (code bug): a hello without a transport field reaches the log
that dereferences the NULL transport item (modelled as none), while a
hello whose transport is present but not "udp" leaves the state
unchanged and emits nothing. -/
theorem ParseServerHello_absent_transport :
    ParseServerHello sConn helloNoTransport = none
  ∧ ParseServerHello sConn helloTcp = some (sConn, []) :=
  ⟨rfl, rfl⟩

/-- C8 counterexample: a goodbye whose session_id differs from the
current session id does change the state, because the handler
refreshes last_incoming_time for every parsed message. -/
theorem goodbye_nonmatching_changes_state :
    OnMessage sAbc 1 (some gbOther) = some ({ sAbc with lastIncomingTime := 1 }, [])
  ∧ ({ sAbc with lastIncomingTime := 1 } : ProtoState) ≠ sAbc :=
  ⟨rfl, by decide⟩

/-- C8 (amended): a goodbye with an absent session_id, or one equal to
the current session id, enqueues a deferred CloseAudioChannel (never
invoked inline); a present, differing session_id triggers no closure
and leaves every field except last_incoming_time unchanged. -/
theorem goodbye_dispatch (s : ProtoState) (now : Nat) (root : cJSON)
    (htype : cJSON_GetObjectItem root "type" = some (cJSON.str "goodbye")) :
    (cJSON_GetObjectItem root "session_id" = none →
       OnMessage s now (some root) =
         some ({ s with lastIncomingTime := now }, [Event.scheduleClose]))
  ∧ (∀ v, cJSON_GetObjectItem root "session_id" = some (cJSON.str v) →
       s.session_id = v →
       OnMessage s now (some root) =
         some ({ s with lastIncomingTime := now }, [Event.scheduleClose]))
  ∧ (∀ v, cJSON_GetObjectItem root "session_id" = some (cJSON.str v) →
       ¬ s.session_id = v →
       OnMessage s now (some root) =
         some ({ s with lastIncomingTime := now }, [])) := by
  refine ⟨fun hsid => ?_, fun v hsid hv => ?_, fun v hsid hv => ?_⟩
  · simp +decide [OnMessage, dispatchMessage, htype, hsid, valuestring]
  · simp +decide [OnMessage, dispatchMessage, htype, hsid, hv, valuestring]
  · simp +decide [OnMessage, dispatchMessage, htype, hsid, hv, valuestring]

theorem goodbye_dispatch_witness :
    cJSON_GetObjectItem gbNone "type" = some (cJSON.str "goodbye")
  ∧ cJSON_GetObjectItem gbNone "session_id" = none
  ∧ OnMessage sAbc 5 (some gbNone) =
      some ({ sAbc with lastIncomingTime := 5 }, [Event.scheduleClose]) :=
  ⟨rfl, rfl, (goodbye_dispatch sAbc 5 gbNone rfl).1 rfl⟩

lemma sendText_no_delete (s : ProtoState) (o : Oracle) (text : String) :
    Event.deleteUdp ∉ (SendText s o text).2 := by
  unfold SendText
  repeat' split
  all_goals simp

lemma close_trace (s : ProtoState) (o : Oracle) :
    (CloseAudioChannel s o).2 =
      Event.lockAcquire ::
        ((if s.udp = true then [Event.deleteUdp] else []) ++
          (Event.lockRelease ::
            ((SendText { s with udp := false } o (goodbyeMsg s.session_id)).2 ++
              (if s.onClosedRegistered = true then [Event.closedCallback] else [])))) := by
  unfold CloseAudioChannel
  simp

/-- C7: CloseAudioChannel is total and idempotent: it drops the
datagram handle under the resource lock (a no-op when absent), the
second consecutive call leaves the state fixed and deletes nothing,
both calls hand the goodbye text carrying the current (possibly
empty) session id to SendText, and both calls invoke the registered
channel-closed notification when one is registered. -/
theorem CloseAudioChannel_idempotent (s : ProtoState) (o : Oracle) :
    (CloseAudioChannel s o).1.udp = false
  ∧ (CloseAudioChannel s o).1.session_id = s.session_id
  ∧ (CloseAudioChannel (CloseAudioChannel s o).1 o).1 = (CloseAudioChannel s o).1
  ∧ Event.sendTextCalled (goodbyeMsg s.session_id) ∈ (CloseAudioChannel s o).2
  ∧ Event.sendTextCalled (goodbyeMsg s.session_id) ∈
      (CloseAudioChannel (CloseAudioChannel s o).1 o).2
  ∧ (∃ rest, (CloseAudioChannel s o).2 =
        Event.lockAcquire ::
          ((if s.udp = true then [Event.deleteUdp] else []) ++
            (Event.lockRelease :: rest))
      ∧ Event.deleteUdp ∉ rest)
  ∧ Event.deleteUdp ∉ (CloseAudioChannel (CloseAudioChannel s o).1 o).2
  ∧ (s.onClosedRegistered = true →
       Event.closedCallback ∈ (CloseAudioChannel s o).2
     ∧ Event.closedCallback ∈ (CloseAudioChannel (CloseAudioChannel s o).1 o).2) := by
  have t1 := close_trace s o
  have t2 := close_trace { s with udp := false } o
  refine ⟨rfl, rfl, rfl, ?_, ?_, ?_, ?_, fun hreg => ⟨?_, ?_⟩⟩
  · rw [t1]; simp [sendText_mem_called]
  · rw [show (CloseAudioChannel s o).1 = { s with udp := false } from rfl, t2]
    simp [sendText_mem_called]
  · refine ⟨(SendText { s with udp := false } o (goodbyeMsg s.session_id)).2 ++
      (if s.onClosedRegistered = true then [Event.closedCallback] else []), t1, ?_⟩
    intro hmem
    rcases List.mem_append.mp hmem with hsend | hcb
    · exact sendText_no_delete _ _ _ hsend
    · rcases hr : s.onClosedRegistered <;> rw [hr] at hcb <;> simp at hcb
  · rw [show (CloseAudioChannel s o).1 = { s with udp := false } from rfl, t2]
    rcases hr : s.onClosedRegistered <;> simp [hr, sendText_no_delete]
  · rw [t1]; simp [hreg]
  · rw [show (CloseAudioChannel s o).1 = { s with udp := false } from rfl, t2]
    simp [hreg]

theorem CloseAudioChannel_idempotent_witness :
    (CloseAudioChannel sUdp oAll).1.udp = false
  ∧ (CloseAudioChannel sUdp oAll).1.session_id = sUdp.session_id
  ∧ (CloseAudioChannel (CloseAudioChannel sUdp oAll).1 oAll).1 =
      (CloseAudioChannel sUdp oAll).1
  ∧ Event.sendTextCalled (goodbyeMsg sUdp.session_id) ∈ (CloseAudioChannel sUdp oAll).2
  ∧ Event.sendTextCalled (goodbyeMsg sUdp.session_id) ∈
      (CloseAudioChannel (CloseAudioChannel sUdp oAll).1 oAll).2
  ∧ (∃ rest, (CloseAudioChannel sUdp oAll).2 =
        Event.lockAcquire ::
          ((if sUdp.udp = true then [Event.deleteUdp] else []) ++
            (Event.lockRelease :: rest))
      ∧ Event.deleteUdp ∉ rest)
  ∧ Event.deleteUdp ∉ (CloseAudioChannel (CloseAudioChannel sUdp oAll).1 oAll).2
  ∧ (sUdp.onClosedRegistered = true →
       Event.closedCallback ∈ (CloseAudioChannel sUdp oAll).2
     ∧ Event.closedCallback ∈ (CloseAudioChannel (CloseAudioChannel sUdp oAll).1 oAll).2) :=
  CloseAudioChannel_idempotent sUdp oAll

/-- C1: with signaling connectivity already in place and a successful
publish, OpenAudioChannel clears the handshake event, hands exactly
the hello request naming protocol version 3, transport "udp", format
"opus", sample rate 16000, one channel and the fixed frame-duration
constant to SendText (which publishes it), and then blocks on the
event group with the fixed 10000 ms deadline, after having reset
busy_sending_audio, error_occurred and session_id. -/
theorem OpenAudioChannel_publishes_hello (s : ProtoState) (o : Oracle)
    (hm : s.mqttInit = true) (hc : s.mqttConnected = true)
    (ht : ¬ s.publish_topic = "") (hp : o.publishOk = true) :
    (OpenAudioChannel s o).2.2 =
      [Event.clearHello,
       Event.sendTextCalled helloRequestMsg,
       Event.mqttPublish (s.publish_topic ++ "/set") helloRequestMsg,
       Event.waitHello 10000]
  ∧ helloRequestMsg =
      "\x7b\"type\":\"hello\",\"version\": 3,\"transport\":\"udp\",\"audio_params\":\x7b\"format\":\"opus\", \"sample_rate\":16000, \"channels\":1, \"frame_duration\":60\x7d\x7d"
  ∧ (OpenAudioChannel s o).2.1.session_id = ""
  ∧ (OpenAudioChannel s o).2.1.busy_sending_audio = false
  ∧ (OpenAudioChannel s o).1 = o.helloSignaled := by
  have hlit : helloRequestMsg =
      "\x7b\"type\":\"hello\",\"version\": 3,\"transport\":\"udp\",\"audio_params\":\x7b\"format\":\"opus\", \"sample_rate\":16000, \"channels\":1, \"frame_duration\":60\x7d\x7d" := by
    decide
  unfold OpenAudioChannel openAudioChannelBody resetForOpen SendText SetError
  rcases hsig : o.helloSignaled <;>
    simp [hm, hc, ht, hp, hsig, hlit]

theorem OpenAudioChannel_publishes_hello_witness :
    sConn.mqttInit = true ∧
    ((OpenAudioChannel sConn oAll).2.2 =
      [Event.clearHello,
       Event.sendTextCalled helloRequestMsg,
       Event.mqttPublish (sConn.publish_topic ++ "/set") helloRequestMsg,
       Event.waitHello 10000]
  ∧ helloRequestMsg =
      "\x7b\"type\":\"hello\",\"version\": 3,\"transport\":\"udp\",\"audio_params\":\x7b\"format\":\"opus\", \"sample_rate\":16000, \"channels\":1, \"frame_duration\":60\x7d\x7d"
  ∧ (OpenAudioChannel sConn oAll).2.1.session_id = ""
  ∧ (OpenAudioChannel sConn oAll).2.1.busy_sending_audio = false
  ∧ (OpenAudioChannel sConn oAll).1 = oAll.helloSignaled) :=
  ⟨rfl, OpenAudioChannel_publishes_hello sConn oAll rfl rfl (by decide) rfl⟩

/-- C5: when the handshake synchronizer is never signaled, and the
call reaches the wait (connectivity in place, publish accepted),
OpenAudioChannel returns false with the HandshakeTimeout error kind
recorded after the 10000 ms wait, and IsAudioChannelOpened is false
on the resulting state at every instant. -/
theorem OpenAudioChannel_timeout (s : ProtoState) (o : Oracle)
    (hm : s.mqttInit = true) (hc : s.mqttConnected = true)
    (ht : ¬ s.publish_topic = "") (hp : o.publishOk = true)
    (hs : o.helloSignaled = false) :
    (OpenAudioChannel s o).1 = false
  ∧ (OpenAudioChannel s o).2.1.lastError = some SERVER_TIMEOUT
  ∧ (OpenAudioChannel s o).2.1.error_occurred = true
  ∧ Event.waitHello 10000 ∈ (OpenAudioChannel s o).2.2
  ∧ ∀ now, IsAudioChannelOpened (OpenAudioChannel s o).2.1 now = false := by
  unfold OpenAudioChannel openAudioChannelBody resetForOpen SendText SetError
  simp [hm, hc, ht, hp, hs, IsAudioChannelOpened]

theorem OpenAudioChannel_timeout_witness :
    oNoSig.helloSignaled = false ∧
    ((OpenAudioChannel sConn oNoSig).1 = false
  ∧ (OpenAudioChannel sConn oNoSig).2.1.lastError = some SERVER_TIMEOUT
  ∧ (OpenAudioChannel sConn oNoSig).2.1.error_occurred = true
  ∧ Event.waitHello 10000 ∈ (OpenAudioChannel sConn oNoSig).2.2
  ∧ ∀ now, IsAudioChannelOpened (OpenAudioChannel sConn oNoSig).2.1 now = false) :=
  ⟨rfl, OpenAudioChannel_timeout sConn oNoSig rfl rfl (by decide) rfl rfl⟩

lemma sendText_no_signal (s : ProtoState) (o : Oracle) (text : String) :
    Event.signalHello ∉ (SendText s o text).2 := by
  unfold SendText
  repeat' split
  all_goals simp

lemma start_no_signal (s : ProtoState) (o : Oracle) (r : Bool) :
    Event.signalHello ∉ (StartMqttClient s o r).2.2 := by
  unfold StartMqttClient
  repeat' split
  all_goals simp

lemma close_no_signal (s : ProtoState) (o : Oracle) :
    Event.signalHello ∉ (CloseAudioChannel s o).2 := by
  rw [close_trace]
  rcases hr : s.onClosedRegistered <;> rcases hu : s.udp <;>
    simp [hr, hu, sendText_no_signal]

lemma body_no_signal (s : ProtoState) (o : Oracle) (evs0 : List Event)
    (h : Event.signalHello ∉ evs0) :
    Event.signalHello ∉ (openAudioChannelBody s o evs0).2.2 := by
  intro hmem
  unfold openAudioChannelBody at hmem
  split at hmem
  · simp_all [sendText_no_signal]
  · split at hmem <;> simp_all [sendText_no_signal]

lemma open_no_signal (s : ProtoState) (o : Oracle) :
    Event.signalHello ∉ (OpenAudioChannel s o).2.2 := by
  unfold OpenAudioChannel
  repeat' split
  · exact start_no_signal s o true
  · exact body_no_signal _ o _ (start_no_signal s o true)
  · exact body_no_signal s o [] (by simp)

lemma parse_success_shape (s : ProtoState) (root : cJSON)
    (s1 : ProtoState) (evs : List Event)
    (h : ParseServerHello s root = some (s1, evs))
    (hsig : Event.signalHello ∈ evs) :
    s1.local_sequence = 0 ∧ s1.remote_sequence = 0 ∧
    evs = [Event.signalHello] ∧ s1.helloEventSet = true := by
  unfold ParseServerHello at h
  repeat' split at h
  all_goals simp_all
  obtain ⟨h1, h2⟩ := h
  subst h1
  simp

lemma dispatch_signal_is_hello (s : ProtoState) (root : cJSON) (tv : String)
    (s1 : ProtoState) (evs : List Event)
    (h : dispatchMessage s root tv = some (s1, evs))
    (hsig : Event.signalHello ∈ evs) : tv = "hello" := by
  by_cases hh : tv = "hello"
  · exact hh
  · exfalso
    unfold dispatchMessage at h
    rw [if_neg hh] at h
    repeat' split at h
    all_goals simp_all
    all_goals
      obtain ⟨h1, h2⟩ := h
      rw [← h2] at hsig
      simp at hsig

lemma onMessage_signal_is_hello (s : ProtoState) (now : Nat)
    (p : Option cJSON) (s1 : ProtoState) (evs : List Event)
    (h : OnMessage s now p = some (s1, evs)) (hsig : Event.signalHello ∈ evs) :
    ∃ root t, p = some root ∧ cJSON_GetObjectItem root "type" = some t ∧
      valuestring t = some "hello" := by
  unfold OnMessage at h
  cases p with
  | none =>
    simp only [Option.some.injEq, Prod.mk.injEq] at h
    rw [← h.2] at hsig
    simp at hsig
  | some root =>
    dsimp only at h
    cases hty : cJSON_GetObjectItem root "type" with
    | none =>
      rw [hty] at h
      simp only [Option.some.injEq, Prod.mk.injEq] at h
      rw [← h.2] at hsig
      simp at hsig
    | some t =>
      rw [hty] at h
      dsimp only at h
      cases hvs : valuestring t with
      | none => rw [hvs] at h; exact Option.noConfusion h
      | some tv =>
        rw [hvs] at h
        dsimp only at h
        cases hd : dispatchMessage s root tv with
        | none => rw [hd] at h; exact Option.noConfusion h
        | some pr =>
          rw [hd] at h
          obtain ⟨sD, evsD⟩ := pr
          dsimp only at h
          simp only [Option.some.injEq, Prod.mk.injEq] at h
          have hevs : evsD = evs := h.2
          have htv : tv = "hello" :=
            dispatch_signal_is_hello s root tv sD evsD hd (hevs ▸ hsig)
          exact ⟨root, t, rfl, hty, htv ▸ hvs⟩

/-- C6: a successfully parsed server hello (one that reaches the
success branch and emits the signal) leaves both sequence counters at
0 and signals the handshake synchronizer exactly once, and no other
operation of the controller — StartMqttClient, OpenAudioChannel,
CloseAudioChannel, or the dispatch of any non-hello message — ever
emits that signal. -/
theorem ParseServerHello_resets_sequences_signals_once
    (s : ProtoState) (root : cJSON) (s1 : ProtoState) (evs : List Event)
    (h : ParseServerHello s root = some (s1, evs))
    (hsig : Event.signalHello ∈ evs) :
    s1.local_sequence = 0 ∧ s1.remote_sequence = 0
  ∧ evs = [Event.signalHello]
  ∧ (∀ t o r, Event.signalHello ∉ (StartMqttClient t o r).2.2)
  ∧ (∀ t o, Event.signalHello ∉ (OpenAudioChannel t o).2.2)
  ∧ (∀ t o, Event.signalHello ∉ (CloseAudioChannel t o).2)
  ∧ (∀ t now p t1 evs2, OnMessage t now p = some (t1, evs2) →
       Event.signalHello ∈ evs2 →
       ∃ root2 ty, p = some root2 ∧ cJSON_GetObjectItem root2 "type" = some ty ∧
         valuestring ty = some "hello") := by
  obtain ⟨h1, h2, h3, _⟩ := parse_success_shape s root s1 evs h hsig
  exact ⟨h1, h2, h3, fun t o r => start_no_signal t o r,
         fun t o => open_no_signal t o, fun t o => close_no_signal t o,
         fun t now p t1 evs2 hm hs2 => onMessage_signal_is_hello t now p t1 evs2 hm hs2⟩

theorem ParseServerHello_resets_sequences_signals_once_witness :
    ParseServerHello sConn helloFull = some (sFull, [Event.signalHello]) ∧
    (sFull.local_sequence = 0 ∧ sFull.remote_sequence = 0
  ∧ [Event.signalHello] = [Event.signalHello]
  ∧ (∀ t o r, Event.signalHello ∉ (StartMqttClient t o r).2.2)
  ∧ (∀ t o, Event.signalHello ∉ (OpenAudioChannel t o).2.2)
  ∧ (∀ t o, Event.signalHello ∉ (CloseAudioChannel t o).2)
  ∧ (∀ t now p t1 evs2, OnMessage t now p = some (t1, evs2) →
       Event.signalHello ∈ evs2 →
       ∃ root2 ty, p = some root2 ∧ cJSON_GetObjectItem root2 "type" = some ty ∧
         valuestring ty = some "hello")) :=
  ⟨by decide,
   ParseServerHello_resets_sequences_signals_once sConn helloFull sFull
     [Event.signalHello] (by decide) (by decide)⟩

lemma start_udp (s : ProtoState) (o : Oracle) (r : Bool) :
    (StartMqttClient s o r).2.1.udp = s.udp := by
  unfold StartMqttClient
  repeat' split
  all_goals rfl

lemma body_udp (s : ProtoState) (o : Oracle) (evs0 : List Event) :
    (openAudioChannelBody s o evs0).2.1.udp = s.udp := by
  unfold openAudioChannelBody resetForOpen SetError
  repeat' split
  all_goals rfl

lemma open_udp (s : ProtoState) (o : Oracle) :
    (OpenAudioChannel s o).2.1.udp = s.udp := by
  unfold OpenAudioChannel
  repeat' split
  · rw [start_udp]
  · rw [body_udp, start_udp]
  · rw [body_udp]

lemma parseSessionId_udp (s : ProtoState) (root : cJSON) (s1 : ProtoState)
    (h : parseSessionId s root = some s1) : s1.udp = s.udp := by
  unfold parseSessionId at h
  repeat' split at h
  all_goals simp_all
  rw [← h]

lemma parseAudioParams_udp (s : ProtoState) (root : cJSON) :
    (parseAudioParams s root).udp = s.udp := by
  unfold parseAudioParams
  repeat' split
  all_goals rfl

lemma parse_udp (s : ProtoState) (root : cJSON) (s1 : ProtoState)
    (evs : List Event) (h : ParseServerHello s root = some (s1, evs)) :
    s1.udp = s.udp := by
  unfold ParseServerHello at h
  cases ht : cJSON_GetObjectItem root "transport" with
  | none => rw [ht] at h; exact Option.noConfusion h
  | some t =>
    rw [ht] at h
    dsimp only at h
    cases hvt : valuestring t with
    | none => rw [hvt] at h; exact Option.noConfusion h
    | some tv =>
      rw [hvt] at h
      dsimp only at h
      by_cases htv : tv = "udp"
      · rw [if_pos htv] at h
        cases hsid : parseSessionId s root with
        | none => rw [hsid] at h; exact Option.noConfusion h
        | some sA =>
          rw [hsid] at h
          dsimp only at h
          have hA : sA.udp = s.udp := parseSessionId_udp s root sA hsid
          cases hu : cJSON_GetObjectItem root "udp" with
          | none =>
            rw [hu] at h
            simp only [Option.some.injEq, Prod.mk.injEq] at h
            rw [← h.1, parseAudioParams_udp]
            exact hA
          | some udpObj =>
            rw [hu] at h
            dsimp only at h
            cases h1 : cJSON_GetObjectItem udpObj "server" with
            | none => rw [h1] at h; exact Option.noConfusion h
            | some serverItem =>
              rw [h1] at h
              dsimp only at h
              cases h2 : valuestring serverItem with
              | none => rw [h2] at h; exact Option.noConfusion h
              | some server =>
                rw [h2] at h
                dsimp only at h
                cases h3 : cJSON_GetObjectItem udpObj "port" with
                | none => rw [h3] at h; exact Option.noConfusion h
                | some portItem =>
                  rw [h3] at h
                  dsimp only at h
                  cases h4 : (cJSON_GetObjectItem udpObj "key").bind valuestring with
                  | none => rw [h4] at h; exact Option.noConfusion h
                  | some key =>
                    rw [h4] at h
                    dsimp only at h
                    cases h5 : (cJSON_GetObjectItem udpObj "nonce").bind valuestring with
                    | none => rw [h5] at h; exact Option.noConfusion h
                    | some nonce =>
                      rw [h5] at h
                      simp only [Option.some.injEq, Prod.mk.injEq] at h
                      rw [← h.1]
                      show (parseAudioParams sA root).udp = s.udp
                      rw [parseAudioParams_udp]
                      exact hA
      · rw [if_neg htv] at h
        simp only [Option.some.injEq, Prod.mk.injEq] at h
        rw [← h.1]

lemma dispatch_udp (s : ProtoState) (root : cJSON) (tv : String)
    (s1 : ProtoState) (evs : List Event)
    (h : dispatchMessage s root tv = some (s1, evs)) : s1.udp = s.udp := by
  unfold dispatchMessage at h
  by_cases hh : tv = "hello"
  · rw [if_pos hh] at h
    exact parse_udp s root s1 evs h
  · rw [if_neg hh] at h
    repeat' split at h
    all_goals simp_all

lemma onMessage_udp (s : ProtoState) (now : Nat) (p : Option cJSON)
    (s1 : ProtoState) (evs : List Event)
    (h : OnMessage s now p = some (s1, evs)) : s1.udp = s.udp := by
  unfold OnMessage at h
  cases p with
  | none =>
    simp only [Option.some.injEq, Prod.mk.injEq] at h
    rw [← h.1]
  | some root =>
    dsimp only at h
    cases hty : cJSON_GetObjectItem root "type" with
    | none =>
      rw [hty] at h
      simp only [Option.some.injEq, Prod.mk.injEq] at h
      rw [← h.1]
    | some t =>
      rw [hty] at h
      dsimp only at h
      cases hvs : valuestring t with
      | none => rw [hvs] at h; exact Option.noConfusion h
      | some tv =>
        rw [hvs] at h
        dsimp only at h
        cases hd : dispatchMessage s root tv with
        | none => rw [hd] at h; exact Option.noConfusion h
        | some pr =>
          rw [hd] at h
          obtain ⟨sD, evsD⟩ := pr
          dsimp only at h
          simp only [Option.some.injEq, Prod.mk.injEq] at h
          rw [← h.1]
          exact dispatch_udp s root tv sD evsD hd

lemma reachable_udp (s : ProtoState) (h : Reachable s) : s.udp = false := by
  induction h with
  | init => rfl
  | start s o r h ih => rw [start_udp]; exact ih
  | openCh s o h ih => rw [open_udp]; exact ih
  | closeCh s o h ih => rfl
  | inbound s now p s1 evs h hm ih => rw [onMessage_udp s now p s1 evs hm]; exact ih

/-- C10: no operation of the controller ever creates the datagram
handle — it is null in every reachable state — and consequently
IsAudioChannelOpened is false in every reachable state at every
instant. -/
theorem udp_handle_never_created (s : ProtoState) (h : Reachable s) :
    s.udp = false ∧ ∀ now, IsAudioChannelOpened s now = false := by
  have hu : s.udp = false := reachable_udp s h
  refine ⟨hu, fun now => ?_⟩
  unfold IsAudioChannelOpened
  rw [hu]
  rfl

theorem udp_handle_never_created_witness :
    Reachable initState ∧
    (initState.udp = false ∧ ∀ now, IsAudioChannelOpened initState now = false) :=
  ⟨Reachable.init, udp_handle_never_created initState Reachable.init⟩
